import Mathlib

/-!
Verification development for src/NBA_ML.py, the feature-derivation and
model-selection script of the NBAgames repository.

The script is embedded shallowly: each pipeline stage becomes an executable
Lean function over plain value data.  Stats are rationals, dates are the
integer day serials the script stores in GAME_DATE_EST, tables are lists of
structure values in dataframe row order.  Library calls of pandas and
scikit-learn are embedded by their documented semantics where the stage under
scrutiny depends on them; the places where that happens carry a comment.
-/

namespace NBAML

/- ## CalendarFeaturizer (lines 140 to 160) -/

/-- Embedding of the expression datetime(1900, 1, 1).toordinal() + x - 2 used on
lines 142 and 152: the proleptic Gregorian ordinal that the script derives from
the integer day serial x held in GAME_DATE_EST.  The Python value of
datetime(1900, 1, 1).toordinal() is 693596, so the fixed epoch offset applied
to a serial is 693594. -/
def pythonOrdinal (x : Nat) : Nat := 693596 + x - 2

/-- Lines 140 to 144: WEEKDAY is the Python weekday of that ordinal.  For an
ordinal o the Python weekday is (o + 6) % 7, with 0 = Monday .. 6 = Sunday,
because ordinal 1 (0001-01-01) is a Monday. -/
def WEEKDAY (x : Nat) : Nat := (pythonOrdinal x + 6) % 7

/-- Line 147: WEEKEND_GAME is 0 if WEEKDAY < 5 else 1. -/
def WEEKEND_GAME (x : Nat) : Nat := if WEEKDAY x < 5 then 0 else 1

/-- Year of era for a day offset inside one 146097-day Gregorian era whose day
0 is the first of March of a year divisible by 400.  Standard civil-from-days
arithmetic. -/
def yoeOf (doe : Nat) : Nat :=
  (doe - doe / 1460 + doe / 36524 - doe / 146096) / 365

/-- Day of year (0 = March 1) for a day offset inside one Gregorian era. -/
def doyOf (doe : Nat) : Nat :=
  doe - (365 * yoeOf doe + yoeOf doe / 4 - yoeOf doe / 100)

/-- Shifted month index (0 = March .. 11 = February) for a day offset inside
one Gregorian era. -/
def mpOf (doe : Nat) : Nat := (5 * doyOf doe + 2) / 153

/-- Calendar month (1 to 12) for a day offset inside one Gregorian era. -/
def monthOfDoe (doe : Nat) : Nat :=
  if mpOf doe < 10 then mpOf doe + 3 else mpOf doe - 9

/-- Lines 150 to 154 together with the float cast on line 157: MONTH_NUM is the
calendar month of datetime.fromordinal applied to the same ordinal.  The
Gregorian calendar repeats every 146097 days and ordinal 1 falls 306 days
after an era day 0, so the month of ordinal o is monthOfDoe ((o + 305) % 146097). -/
def MONTH_NUM (x : Nat) : Nat := monthOfDoe ((pythonOrdinal x + 305) % 146097)

/-- Lines 158 to 160: PLAYOFF_GAME is 1 if (MONTH_NUM <= 6 and MONTH_NUM >= 4)
else 0. -/
def PLAYOFF_GAME (x : Nat) : Nat :=
  if MONTH_NUM x ≤ 6 ∧ 4 ≤ MONTH_NUM x then 1 else 0

/- ## StandingsJoiner (lines 95 to 137) -/

/-- One row of the cleaned ranking table, after the column drops of lines 97
to 108.  The field idx is the pandas index label of the row, which stays the
positional file index because the set_index call on line 52 discards its
result; the script then joins on exactly this label. -/
structure RankRow where
  idx : Nat
  TEAM_ID : Int
  STANDINGSDATE : Nat
  G : Nat
  W : Nat
  L : Nat
  W_PCT : ℚ
deriving DecidableEq

/-- The join-relevant columns of one game row at the point of the two
merge_asof calls.  The game table index is likewise positional, because the
set_index call on line 41 discards its result. -/
structure GameKey where
  GAME_DATE_EST : Nat
  HOME_TEAM_ID : Int
  VISITOR_TEAM_ID : Int
deriving DecidableEq

/-- pd.merge_asof with left_index=True, right_index=True, a by-key on the team
id and allow_exact_matches=False (lines 109 to 117 and 126 to 134): for the
left row with index i, the match is the right row carrying the largest index
strictly below i among the rows of the same team, when one exists. -/
def asofPrior (rnk : List RankRow) (team : Int) (i : Nat) : Option RankRow :=
  (rnk.filter (fun r => decide (r.TEAM_ID = team ∧ r.idx < i))).foldl
    (fun acc r =>
      match acc with
      | none => some r
      | some b => if b.idx < r.idx then some r else some b) none

/-- Lines 109 to 137: the home-side merge_asof followed by dropna, then the
away-side merge_asof followed by dropna.  dropna keeps index labels, so both
joins compare against the positional index of the game table; a game row
survives exactly when both sides find a match. -/
def standingsJoiner (games : List GameKey) (rnk : List RankRow) :
    List (GameKey × RankRow × RankRow) :=
  games.enum.filterMap (fun p =>
    match asofPrior rnk p.2.HOME_TEAM_ID p.1, asofPrior rnk p.2.VISITOR_TEAM_ID p.1 with
    | some h, some a => some (p.2, h, a)
    | _, _ => none)

/-- Concrete game table: two unmatched games occupying indices 0 and 1, and at
index 2 a game played on day 50 between home team 10 and visitor team 20. -/
def cGames : List GameKey := [⟨40, 99, 98⟩, ⟨41, 97, 96⟩, ⟨50, 10, 20⟩]

/-- Concrete ranking table: one snapshot per team, both dated day 99, which is
after the day-50 game of cGames. -/
def cRnk : List RankRow :=
  [⟨0, 10, 99, 10, 5, 5, mkRat 1 2⟩, ⟨1, 20, 99, 10, 5, 5, mkRat 1 2⟩]

/- ## LeakageFilter (lines 343 to 361) -/

/-- The column list passed to df.drop on lines 344 to 361. -/
def droppedColumns : List String :=
  ["HOME_TEAM_WINS", "PTS_home", "FG_PCT_home", "FT_PCT_home", "FG3_PCT_home",
   "AST_home", "REB_home", "PTS_away", "FG_PCT_away", "FT_PCT_away",
   "FG3_PCT_away", "AST_away", "REB_away"]

/-- The twelve same-game box-score columns named by the spec. -/
def boxScoreColumns : List String :=
  ["PTS_home", "FG_PCT_home", "FT_PCT_home", "FG3_PCT_home", "AST_home",
   "REB_home", "PTS_away", "FG_PCT_away", "FT_PCT_away", "FG3_PCT_away",
   "AST_away", "REB_away"]

/-- X = df.drop(columns=droppedColumns): the feature matrix keeps, in order,
exactly the working-table columns outside the dropped list. -/
def leakageFilter (cols : List String) : List String :=
  cols.filter (fun c => !droppedColumns.contains c)

/- ## HistoricalAggregator (lines 169 to 337) -/

/-- The working-table columns that the pivot aggregates of lines 169 to 314
read: team keys and the per-game box-score stats.  The table also carries the
other feature columns; they play no role in this stage and are omitted from
the row type. -/
structure GameRow where
  HOME_TEAM_ID : Int
  TEAM_ID_away : Int
  PTS_home : ℚ
  FG_PCT_home : ℚ
  FT_PCT_home : ℚ
  FG3_PCT_home : ℚ
  AST_home : ℚ
  REB_home : ℚ
  PTS_away : ℚ
  FG_PCT_away : ℚ
  FT_PCT_away : ℚ
  FG3_PCT_away : ℚ
  AST_away : ℚ
  REB_away : ℚ
deriving DecidableEq

/-- pd.pivot_table(df, values=v, index=[HOME_TEAM_ID], aggfunc=np.mean)
followed by the left merge on HOME_TEAM_ID: the value broadcast to a row of
team t is the arithmetic mean of column v over every working-table row whose
HOME_TEAM_ID is t.  The successive left merges only append columns (the pivot
key is unique and present on every row), so each of the six home pivots is
taken over the same row multiset. -/
def pivotMeanHome (t : List GameRow) (v : GameRow → ℚ) (team : Int) : ℚ :=
  ((t.filter (fun r => decide (r.HOME_TEAM_ID = team))).map v).sum
    / ((t.filter (fun r => decide (r.HOME_TEAM_ID = team))).length : ℚ)

/-- The away-side pivots of lines 244 to 314, keyed on TEAM_ID_away. -/
def pivotMeanAway (t : List GameRow) (v : GameRow → ℚ) (team : Int) : ℚ :=
  ((t.filter (fun r => decide (r.TEAM_ID_away = team))).map v).sum
    / ((t.filter (fun r => decide (r.TEAM_ID_away = team))).length : ℚ)

/-- The eighteen columns appended by lines 169 to 337. -/
structure HistCols where
  HIST_PPG_homeTeam : ℚ
  HIST_FGpercent_homeTeam : ℚ
  HIST_FTpercent_homeTeam : ℚ
  HIST_FG3percent_homeTeam : ℚ
  HIST_APG_homeTeam : ℚ
  HIST_REB_homeTeam : ℚ
  HIST_PPG_awayTeam : ℚ
  HIST_FGpercent_awayTeam : ℚ
  HIST_FTpercent_awayTeam : ℚ
  HIST_FG3percent_awayTeam : ℚ
  HIST_APG_awayTeam : ℚ
  HIST_REB_awayTeam : ℚ
  DIFF_HIST_PPG : ℚ
  DIFF_HIST_FG : ℚ
  DIFF_HIST_FT : ℚ
  DIFF_HIST_FG3 : ℚ
  DIFF_HIST_APG : ℚ
  DIFF_HIST_REB : ℚ
deriving DecidableEq

/-- The columns the aggregator stage attaches to one row of the working table
t: six home means keyed by the rows HOME_TEAM_ID, six away means keyed by its
TEAM_ID_away, and the six differences of lines 316 to 337. -/
def histEnrich (t : List GameRow) (r : GameRow) : GameRow × HistCols :=
  let hp := pivotMeanHome t (fun g => g.PTS_home) r.HOME_TEAM_ID
  let hfg := pivotMeanHome t (fun g => g.FG_PCT_home) r.HOME_TEAM_ID
  let hft := pivotMeanHome t (fun g => g.FT_PCT_home) r.HOME_TEAM_ID
  let hf3 := pivotMeanHome t (fun g => g.FG3_PCT_home) r.HOME_TEAM_ID
  let hap := pivotMeanHome t (fun g => g.AST_home) r.HOME_TEAM_ID
  let hrb := pivotMeanHome t (fun g => g.REB_home) r.HOME_TEAM_ID
  let ap := pivotMeanAway t (fun g => g.PTS_away) r.TEAM_ID_away
  let afg := pivotMeanAway t (fun g => g.FG_PCT_away) r.TEAM_ID_away
  let aft := pivotMeanAway t (fun g => g.FT_PCT_away) r.TEAM_ID_away
  let af3 := pivotMeanAway t (fun g => g.FG3_PCT_away) r.TEAM_ID_away
  let aap := pivotMeanAway t (fun g => g.AST_away) r.TEAM_ID_away
  let arb := pivotMeanAway t (fun g => g.REB_away) r.TEAM_ID_away
  (r, { HIST_PPG_homeTeam := hp, HIST_FGpercent_homeTeam := hfg,
        HIST_FTpercent_homeTeam := hft, HIST_FG3percent_homeTeam := hf3,
        HIST_APG_homeTeam := hap, HIST_REB_homeTeam := hrb,
        HIST_PPG_awayTeam := ap, HIST_FGpercent_awayTeam := afg,
        HIST_FTpercent_awayTeam := aft, HIST_FG3percent_awayTeam := af3,
        HIST_APG_awayTeam := aap, HIST_REB_awayTeam := arb,
        DIFF_HIST_PPG := hp - ap, DIFF_HIST_FG := hfg - afg,
        DIFF_HIST_FT := hft - aft, DIFF_HIST_FG3 := hf3 - af3,
        DIFF_HIST_APG := hap - aap, DIFF_HIST_REB := hrb - arb })

/-- Lines 169 to 337 as one table transformation: every row keeps its position
and gains the eighteen aggregate columns. -/
def historicalAggregator (t : List GameRow) : List (GameRow × HistCols) :=
  t.map (histEnrich t)

/-- A one-row concrete working table used by the witness below. -/
def exampleGameRow : GameRow :=
  { HOME_TEAM_ID := 10, TEAM_ID_away := 20,
    PTS_home := 100, FG_PCT_home := mkRat 45 100, FT_PCT_home := mkRat 80 100,
    FG3_PCT_home := mkRat 35 100, AST_home := 25, REB_home := 44,
    PTS_away := 90, FG_PCT_away := mkRat 40 100, FT_PCT_away := mkRat 75 100,
    FG3_PCT_away := mkRat 30 100, AST_away := 22, REB_away := 41 }

/- ## ModelSelector panel (lines 362 to 399) -/

/-- The constructor arguments that appear in the classifier panel of lines 365
to 382: random_state (passed to the three tree learners) and probability
(passed to NuSVC and SVC).  Every other argument is left at its default, which
for random_state is none and for probability is false. -/
structure Config where
  randomState : Option Nat := none
  probability : Bool := false
deriving DecidableEq

/-- An sklearn classifier of a given family, identified the way the script
identifies it: by its class name string, plus the constructor arguments. -/
structure Candidate where
  name : String
  config : Config
deriving DecidableEq

/-- Python: cfg with every field at its default, as produced by a zero-argument
constructor call. -/
def defaultConfig : Config := {}

/-- The fixed classifier panel of lines 365 to 382, in source order. -/
def panel : List Candidate :=
  [⟨"ExtraTreeClassifier", { randomState := some 2408 }⟩,
   ⟨"DecisionTreeClassifier", { randomState := some 2408 }⟩,
   ⟨"MLPClassifier", {}⟩,
   ⟨"KNeighborsClassifier", {}⟩,
   ⟨"AdaBoostClassifier", {}⟩,
   ⟨"GradientBoostingClassifier", {}⟩,
   ⟨"BaggingClassifier", {}⟩,
   ⟨"RandomForestClassifier", { randomState := some 2408 }⟩,
   ⟨"BernoulliNB", {}⟩,
   ⟨"GaussianNB", {}⟩,
   ⟨"LinearDiscriminantAnalysis", {}⟩,
   ⟨"LogisticRegression", {}⟩,
   ⟨"LogisticRegressionCV", {}⟩,
   ⟨"NuSVC", { probability := true }⟩,
   ⟨"SVC", { probability := true }⟩,
   ⟨"XGBClassifier", {}⟩]

/-- One row appended to result_table on lines 391 to 399.  The dict literal
stores only the class name string, the two rate curves and the AUC scalar; the
fitted model object itself is not retained.  The curves play no role in any
claim and are omitted. -/
structure EvalResult where
  name : String
  auc : Option ℚ
deriving DecidableEq

/-- Whether an Except value is an error. -/
def isErr {α : Type} : Except String α → Bool
  | Except.error _ => true
  | Except.ok _ => false

/-- The panel loop of lines 386 to 399.  Each iteration runs fit, predict_proba
and the two metric calls; the loop body contains no exception handler, so the
loop is the sequential composition in the exception monad: the first candidate
whose evaluation raises aborts the loop, and only an all-success run yields the
full result table in panel order. -/
def runPanelLoop : List (Except String EvalResult) → Except String (List EvalResult)
  | [] => Except.ok []
  | Except.error e :: _ => Except.error e
  | Except.ok r :: rest =>
    match runPanelLoop rest with
    | Except.error e => Except.error e
    | Except.ok rs => Except.ok (r :: rs)

/- ## Winner selection (lines 416 to 421) -/

/-- The scan behind Series.idxmax (line 420): walk the values with their
positions, skip NaN entries (modelled as none), keep the first position whose
value is not exceeded later.  Returns the winning position and its value. -/
def idxmaxFrom : Nat → List (Option ℚ) → Option (Nat × ℚ)
  | _, [] => none
  | i, none :: rest => idxmaxFrom (i + 1) rest
  | i, some v :: rest =>
    match idxmaxFrom (i + 1) rest with
    | none => some (i, v)
    | some (j, w) => if v < w then some (j, w) else some (i, v)

/-- result_table["AUC"].idxmax() on lines 419 to 420: the label of the first
row attaining the maximum AUC, NaN rows skipped. -/
def idxmax (l : List (Option ℚ)) : Option Nat :=
  (idxmaxFrom 0 l).map Prod.fst

/-- Lines 419 to 421: the winning class name, read off the result table at the
idxmax row. -/
def winnerName (tbl : List (String × Option ℚ)) : Option String :=
  (idxmax (tbl.map Prod.snd)).bind (fun j => (tbl.get? j).map Prod.fst)

/- ## Split determinism and ambient randomness (lines 362 to 399) -/

/-- The arguments the script passes to train_test_split on lines 362 to 364.
numpy seeding makes the produced split a pure function of these, so the split
is represented by them. -/
structure SplitSpec where
  nRows : Nat
  testSize : ℚ
  seed : Nat
deriving DecidableEq

/-- train_test_split(X, y, test_size=0.3, random_state=2424). -/
def trainTestSplitSpec (n : Nat) : SplitSpec := ⟨n, mkRat 3 10, 2424⟩

/-- The seed a candidate trains under: its own random_state when the panel
passes one, otherwise whatever the ambient global random state holds at fit
time.  Thirteen of the sixteen panel entries are built without random_state. -/
def candidateSeed (c : Candidate) (ambient : Nat) : Nat :=
  match c.config.randomState with
  | some s => s
  | none => ambient

/-- One execution of the model-selection stage: the split produced from the
fixed arguments, and the result table obtained by evaluating every candidate
under its seed.  aucOf gives the AUC a family attains when trained under a
given seed; it abstracts the data and the library fit routines and is the same
function for two runs over the same input table. -/
structure SelectionRun where
  split : SplitSpec
  table : List (String × Option ℚ)
deriving DecidableEq

/-- Run the selection stage once with a given ambient random state. -/
def selectionRun (n : Nat) (aucOf : String → Nat → Option ℚ) (ambient : Nat) :
    SelectionRun :=
  { split := trainTestSplitSpec n
  , table := panel.map (fun c => (c.name, aucOf c.name (candidateSeed c ambient))) }

/- ## ExplainabilityReporter (lines 424 to 493) -/

/-- Line 424: final = eval(final)() rebuilds the winner from its class name
with a zero-argument constructor call, hence with every constructor argument
at its default. -/
def rebuild (nm : String) : Candidate := ⟨nm, defaultConfig⟩

/-- Modelled from the spec (the sklearn side is outside the repository): SVC
and NuSVC expose predict_proba only when constructed with probability=True;
every other panel family always exposes it. -/
def supportsProba (nm : String) (cfg : Config) : Bool :=
  if nm = "NuSVC" ∨ nm = "SVC" then cfg.probability else true

/-- Modelled from the spec (the sklearn side is outside the repository): the
tree and ensemble families expose a feature_importances_ attribute; the
linear, kernel, neighbor, naive-Bayes and neural families do not. -/
def supportsImportances (nm : String) : Bool :=
  nm ∈ ["ExtraTreeClassifier", "DecisionTreeClassifier", "AdaBoostClassifier",
        "GradientBoostingClassifier", "BaggingClassifier",
        "RandomForestClassifier", "XGBClassifier"]

/-- The user-visible outputs the script produces after the winner is chosen,
in program order. -/
inductive ReportOutput
  | accuracyLine
  | importanceRanking
  | rocCurvePlot
  | importanceChart
  | modelPickle
deriving DecidableEq

/-- A raised Python exception: its class name and, for attribute errors, the
object class and missing attribute.  The script defines no exception class of
its own, so every failure of the explainability stage surfaces as a builtin
AttributeError. -/
structure PyError where
  excType : String
  obj : String
  attr : String
deriving DecidableEq

/-- The generic builtin AttributeError. -/
def attributeErrorOn (obj attr : String) : PyError := ⟨"AttributeError", obj, attr⟩

/-- Lines 424 to 493 run in order: rebuild, fit, predict, predict_proba (line
427), print accuracy (line 429), read feature_importances_ (line 430), print
the ranking (line 434), draw the ROC plot (lines 437 to 454), draw the
importance chart (lines 456 to 472), pickle the model (line 492).  The result
is the list of outputs emitted before the first uncaught exception, paired
with that exception when one is raised. -/
def explainStage (winner : String) : List ReportOutput × Option PyError :=
  let f := rebuild winner
  if ¬ supportsProba f.name f.config then
    ([], some (attributeErrorOn f.name "predict_proba"))
  else if ¬ supportsImportances f.name then
    ([ReportOutput.accuracyLine], some (attributeErrorOn f.name "feature_importances_"))
  else
    ([ReportOutput.accuracyLine, ReportOutput.importanceRanking,
      ReportOutput.rocCurvePlot, ReportOutput.importanceChart,
      ReportOutput.modelPickle], none)

/-- The model object the explainability stage trains and reports: the rebuilt
candidate and the split it is fitted on (line 425 fits on the X_train of line
362). -/
structure RefitModel where
  cand : Candidate
  trainedOn : SplitSpec
deriving DecidableEq

/-- Lines 424 to 425 as a function of what the stage actually receives: the
result-table row of the winner (which holds only the class name) and the split
in scope.  The already-fitted panel instance is not an input. -/
def explainRefit (winnerRow : String × Option ℚ) (s : SplitSpec) : RefitModel :=
  ⟨rebuild winnerRow.1, s⟩

/- ## Helper lemmas -/

/-- Inside one era the day of year never exceeds 672.  The sharp bound is 365,
but this weaker one, which the omega decision procedure settles directly, is
all the month-range fact below needs. -/
theorem doyOf_le (d : Nat) (hd : d < 146097) : doyOf d ≤ 672 := by
  unfold doyOf yoeOf
  omega

/-- The shifted month index stays at most 21, so both branches of monthOfDoe
land inside 1 to 12. -/
theorem monthOfDoe_range (d : Nat) (hd : d < 146097) :
    1 ≤ monthOfDoe d ∧ monthOfDoe d ≤ 12 := by
  have hdoy := doyOf_le d hd
  have hmp : mpOf d ≤ 21 := by unfold mpOf; omega
  unfold monthOfDoe
  by_cases h : mpOf d < 10
  · rw [if_pos h]; omega
  · rw [if_neg h]; omega

/-- When the idxmax scan finds nothing, every entry of the list is NaN. -/
theorem idxmaxFrom_eq_none :
    ∀ (l : List (Option ℚ)) (i : Nat), idxmaxFrom i l = none →
      ∀ k x, l.get? k = some x → x = none := by
  intro l
  induction l with
  | nil =>
    intro i _ k x hk
    simp at hk
  | cons hd tl ih =>
    intro i h k x hk
    cases hd with
    | none =>
      simp only [idxmaxFrom] at h
      cases k with
      | zero => simp at hk; exact hk.symm
      | succ k => exact ih (i + 1) h k x (by simpa using hk)
    | some v =>
      simp only [idxmaxFrom] at h
      cases hrec : idxmaxFrom (i + 1) tl with
      | none => rw [hrec] at h; cases h
      | some p =>
        obtain ⟨j, w⟩ := p
        rw [hrec] at h
        dsimp at h
        split at h <;> cases h

/-- Characterisation of the idxmax scan started at offset i: the returned
position carries the returned value, no entry exceeds that value, and every
entry strictly before the returned position is strictly below it. -/
theorem idxmaxFrom_spec :
    ∀ (l : List (Option ℚ)) (i j : Nat) (w : ℚ),
      idxmaxFrom i l = some (j, w) →
      i ≤ j ∧ l.get? (j - i) = some (some w)
        ∧ (∀ k v, l.get? k = some (some v) → v ≤ w)
        ∧ (∀ k v, l.get? k = some (some v) → i + k < j → v < w) := by
  intro l
  induction l with
  | nil =>
    intro i j w h
    simp [idxmaxFrom] at h
  | cons hd tl ih =>
    intro i j w h
    cases hd with
    | none =>
      simp only [idxmaxFrom] at h
      obtain ⟨hij, hget, hub, hstrict⟩ := ih (i + 1) j w h
      refine ⟨by omega, ?_, ?_, ?_⟩
      · have hji : j - i = (j - (i + 1)) + 1 := by omega
        rw [hji]
        simpa using hget
      · intro k v hk
        cases k with
        | zero => simp at hk
        | succ k => exact hub k v (by simpa using hk)
      · intro k v hk hlt
        cases k with
        | zero => simp at hk
        | succ k => exact hstrict k v (by simpa using hk) (by omega)
    | some a =>
      simp only [idxmaxFrom] at h
      cases hrec : idxmaxFrom (i + 1) tl with
      | none =>
        rw [hrec] at h
        dsimp at h
        have hall := idxmaxFrom_eq_none tl (i + 1) hrec
        have hp : (i, a) = (j, w) := Option.some.inj h
        have h1 : i = j := congrArg Prod.fst hp
        have h2 : a = w := congrArg Prod.snd hp
        subst h1
        subst h2
        refine ⟨le_refl _, by simp, ?_, ?_⟩
        · intro k v hk
          cases k with
          | zero => simp at hk; exact le_of_eq hk.symm
          | succ k =>
            have := hall k (some v) (by simpa using hk)
            cases this
        · intro k v hk hlt
          exact absurd hlt (by omega)
      | some p =>
        obtain ⟨j1, w1⟩ := p
        rw [hrec] at h
        dsimp at h
        obtain ⟨hij1, hget1, hub1, hstrict1⟩ := ih (i + 1) j1 w1 hrec
        by_cases haw : a < w1
        · rw [if_pos haw] at h
          have hp : (j1, w1) = (j, w) := Option.some.inj h
          have h1 : j1 = j := congrArg Prod.fst hp
          have h2 : w1 = w := congrArg Prod.snd hp
          subst h1
          subst h2
          refine ⟨by omega, ?_, ?_, ?_⟩
          · have hji : j1 - i = (j1 - (i + 1)) + 1 := by omega
            rw [hji]
            simpa using hget1
          · intro k v hk
            cases k with
            | zero => simp at hk; exact le_of_lt (hk ▸ haw)
            | succ k => exact hub1 k v (by simpa using hk)
          · intro k v hk hlt
            cases k with
            | zero => simp at hk; exact hk ▸ haw
            | succ k => exact hstrict1 k v (by simpa using hk) (by omega)
        · rw [if_neg haw] at h
          have hp : (i, a) = (j, w) := Option.some.inj h
          have h1 : i = j := congrArg Prod.fst hp
          have h2 : a = w := congrArg Prod.snd hp
          subst h1
          subst h2
          have hw1a : w1 ≤ a := le_of_not_lt haw
          refine ⟨le_refl _, by simp, ?_, ?_⟩
          · intro k v hk
            cases k with
            | zero => simp at hk; exact le_of_eq hk.symm
            | succ k => exact le_trans (hub1 k v (by simpa using hk)) hw1a
          · intro k v hk hlt
            exact absurd hlt (by omega)

/- ## Claims -/

/-- Claim C7: on every row the calendar features are pure functions of the
integer day serial under the fixed epoch offset of lines 142 and 152.  WEEKDAY
is a weekday index below 7, WEEKEND_GAME is 1 exactly when WEEKDAY is at least
5, MONTH_NUM always lies in 1 to 12, and PLAYOFF_GAME is 1 exactly when
MONTH_NUM lies in 4 to 6.  The serial 42064 is the one the epoch offset maps
to 2015-03-01 (python ordinal 735658), a Sunday: there weekday is 6, the
weekend flag 1, the month 3 and the playoff flag 0; the next serial, a Monday,
has weekday 0. -/
theorem calendar_features_spec :
    (∀ x : Nat, WEEKDAY x < 7)
    ∧ (∀ x : Nat, WEEKEND_GAME x = 1 ↔ 5 ≤ WEEKDAY x)
    ∧ (∀ x : Nat, 1 ≤ MONTH_NUM x ∧ MONTH_NUM x ≤ 12)
    ∧ (∀ x : Nat, PLAYOFF_GAME x = 1 ↔ (4 ≤ MONTH_NUM x ∧ MONTH_NUM x ≤ 6))
    ∧ pythonOrdinal 42064 = 735658
    ∧ WEEKDAY 42064 = 6 ∧ WEEKEND_GAME 42064 = 1
    ∧ MONTH_NUM 42064 = 3 ∧ PLAYOFF_GAME 42064 = 0
    ∧ WEEKDAY 42065 = 0 := by
  refine ⟨?_, ?_, ?_, ?_, by decide, by decide, by decide, by decide, by decide, by decide⟩
  · intro x
    unfold WEEKDAY
    omega
  · intro x
    unfold WEEKEND_GAME
    split <;> omega
  · intro x
    exact monthOfDoe_range _ (Nat.mod_lt _ (by omega))
  · intro x
    unfold PLAYOFF_GAME
    split <;> omega

/-- Claim C1 (code bug witness): on a concrete pair of tables, the standings
join keeps the day-50 game and attaches, on both sides, snapshots dated day
99, after the game.  A date-keyed as-of join with allow_exact_matches=False,
which lines 40 to 41 and 51 to 52 visibly attempt to set up before discarding
the sorted and reindexed frames, would instead find no strictly prior
snapshot and drop the row. -/
theorem standingsJoiner_joins_future_snapshot :
    standingsJoiner cGames cRnk
      = [(⟨50, 10, 20⟩, ⟨0, 10, 99, 10, 5, 5, mkRat 1 2⟩,
          ⟨1, 20, 99, 10, 5, 5, mkRat 1 2⟩)]
    ∧ ((standingsJoiner cGames cRnk).all
        (fun t => decide (t.1.GAME_DATE_EST < t.2.1.STANDINGSDATE
          ∧ t.1.GAME_DATE_EST < t.2.2.STANDINGSDATE))) = true := by
  decide

/-- Claim C2: whatever columns the working table holds, the feature matrix X
produced by the drop on lines 343 to 361 contains neither the label column
HOME_TEAM_WINS nor any of the twelve same-game box-score columns. -/
theorem leakageFilter_no_leakage :
    ∀ cols : List String,
      "HOME_TEAM_WINS" ∉ leakageFilter cols
      ∧ ∀ c, c ∈ boxScoreColumns → c ∉ leakageFilter cols := by
  intro cols
  constructor
  · intro h
    exact absurd (List.mem_filter.mp h).2 (by decide)
  · intro c hc h
    have hdrop : droppedColumns.contains c = true := by
      have hall : ∀ x ∈ boxScoreColumns, droppedColumns.contains x = true := by decide
      exact hall c hc
    have hkeep := (List.mem_filter.mp h).2
    rw [hdrop] at hkeep
    exact Bool.noConfusion hkeep

/-- Witness for C2 at a concrete column list. -/
theorem leakageFilter_no_leakage_witness :
    "PTS_home" ∉ leakageFilter ["GAME_DATE_EST", "PTS_home", "HOME_TEAM_WINS", "WEEKDAY"] :=
  (leakageFilter_no_leakage ["GAME_DATE_EST", "PTS_home", "HOME_TEAM_WINS", "WEEKDAY"]).2
    "PTS_home" (by decide)

/-- Claim C3: whenever lines 419 to 421 name a winner, that winner sits at some
row j of the result table (which the append loop keeps in panel order), its AUC
w is attained there, no recorded AUC exceeds w, and every row before j holds a
strictly smaller recorded AUC, so on numerically identical maxima the earliest
panel entry wins. -/
theorem modelSelector_first_max :
    ∀ (tbl : List (String × Option ℚ)) (nm : String),
      winnerName tbl = some nm →
      ∃ j w, (tbl.get? j).map Prod.fst = some nm
        ∧ (tbl.map Prod.snd).get? j = some (some w)
        ∧ (∀ k v, (tbl.map Prod.snd).get? k = some (some v) → v ≤ w)
        ∧ (∀ k v, (tbl.map Prod.snd).get? k = some (some v) → k < j → v < w) := by
  intro tbl nm h
  unfold winnerName at h
  obtain ⟨j, hj, hnm⟩ := Option.bind_eq_some.mp h
  unfold idxmax at hj
  obtain ⟨p, hp, hpj⟩ := Option.map_eq_some'.mp hj
  obtain ⟨j0, w⟩ := p
  dsimp at hpj hnm
  subst hpj
  obtain ⟨-, hget, hub, hstrict⟩ := idxmaxFrom_spec (tbl.map Prod.snd) 0 j0 w hp
  rw [Nat.sub_zero] at hget
  refine ⟨j0, w, hnm, hget, hub, ?_⟩
  intro k v hk hkj
  exact hstrict k v hk (by omega)

/-- A concrete result table with a NaN entry and an AUC tie between rows 1
and 2. -/
def cTbl : List (String × Option ℚ) :=
  [("AdaBoostClassifier", some (mkRat 1 2)),
   ("GradientBoostingClassifier", some (mkRat 7 10)),
   ("RandomForestClassifier", some (mkRat 7 10)),
   ("SVC", none)]

/-- Witness for C3: on cTbl the winner is the earlier of the two tied rows. -/
theorem modelSelector_first_max_witness :
    ∃ j w, (cTbl.get? j).map Prod.fst = some "GradientBoostingClassifier"
      ∧ (cTbl.map Prod.snd).get? j = some (some w)
      ∧ (∀ k v, (cTbl.map Prod.snd).get? k = some (some v) → v ≤ w)
      ∧ (∀ k v, (cTbl.map Prod.snd).get? k = some (some v) → k < j → v < w) :=
  modelSelector_first_max cTbl "GradientBoostingClassifier" (by decide)

/-- Claim C4 amended theorem: the panel loop of lines 386 to 399 carries no
per-candidate error handling, so the run is fatal exactly when some candidate
evaluation raises, not only when all do; an excluded-and-continue behaviour
does not exist. -/
theorem panelLoop_fatal_iff_any :
    ∀ fits : List (Except String EvalResult),
      isErr (runPanelLoop fits) = fits.any (fun f => isErr f) := by
  intro fits
  induction fits with
  | nil => rfl
  | cons hd tl ih =>
    cases hd with
    | error e => simp [runPanelLoop, isErr]
    | ok r =>
      have hstep : runPanelLoop (Except.ok r :: tl)
          = match runPanelLoop tl with
            | Except.error e => Except.error e
            | Except.ok rs => Except.ok (r :: rs) := rfl
      rw [hstep]
      cases hloop : runPanelLoop tl with
      | error e =>
        rw [hloop] at ih
        simp only [isErr] at ih
        simp [isErr, List.any_cons, ← ih]
      | ok rs =>
        rw [hloop] at ih
        simp only [isErr] at ih
        simp [isErr, List.any_cons, ← ih]

/-- A successful evaluation row used by the C4 counterexample. -/
def cEvalOk : EvalResult := ⟨"DecisionTreeClassifier", some (mkRat 3 5)⟩

/-- Claim C4 counterexample: with a first candidate that raises and a second
that succeeds, the loop aborts with the exception instead of continuing with
the surviving candidate, contradicting the claim that the run continues and is
fatal only when all candidates fail. -/
theorem panelLoop_counterexample :
    runPanelLoop [Except.error "ValueError", Except.ok cEvalOk]
      = Except.error "ValueError"
    ∧ runPanelLoop [Except.error "ValueError", Except.ok cEvalOk]
        ≠ Except.ok [cEvalOk] := by
  constructor
  · rfl
  · simp [runPanelLoop]

/-- Claim C5: the explainability stage receives only the winning row of the
result table, which holds the class name and not the fitted object; it builds
a fresh instance of the same family with every constructor argument at its
default and fits it on whatever split it is handed, the one from line 362.
Whenever the winning panel instance carried a non-default configuration, the
rebuilt model is a different instance. -/
theorem explainRefit_fresh :
    ∀ (c : Candidate) (auc : Option ℚ) (s : SplitSpec),
      (explainRefit (c.name, auc) s).cand.name = c.name
      ∧ (explainRefit (c.name, auc) s).cand.config = defaultConfig
      ∧ (explainRefit (c.name, auc) s).trainedOn = s
      ∧ (c.config ≠ defaultConfig → (explainRefit (c.name, auc) s).cand ≠ c) := by
  intro c auc s
  refine ⟨rfl, rfl, rfl, ?_⟩
  intro hc hEq
  exact hc (congrArg Candidate.config hEq).symm

/-- Witness for C5 at the seeded random-forest panel entry. -/
theorem explainRefit_fresh_witness :
    (explainRefit ("RandomForestClassifier", some 1) (trainTestSplitSpec 100)).cand
      ≠ ⟨"RandomForestClassifier", { randomState := some 2408 }⟩ :=
  (explainRefit_fresh ⟨"RandomForestClassifier", { randomState := some 2408 }⟩
    (some 1) (trainTestSplitSpec 100)).2.2.2 (by decide)

/-- Claim C6: every output row of the aggregator stage carries, for each of the
six stats and each side, the arithmetic mean of that stat over all working
table rows keyed by this rows team id (home appearances under HOME_TEAM_ID,
away appearances under TEAM_ID_away, with no date restriction), and each of
the six differential columns is exactly the home mean minus the away mean. -/
theorem historicalAggregator_means_and_diffs :
    ∀ (t : List GameRow) (p : GameRow × HistCols),
      p ∈ historicalAggregator t →
      (p.2.HIST_PPG_homeTeam = pivotMeanHome t (fun g => g.PTS_home) p.1.HOME_TEAM_ID
        ∧ p.2.HIST_FGpercent_homeTeam = pivotMeanHome t (fun g => g.FG_PCT_home) p.1.HOME_TEAM_ID
        ∧ p.2.HIST_FTpercent_homeTeam = pivotMeanHome t (fun g => g.FT_PCT_home) p.1.HOME_TEAM_ID
        ∧ p.2.HIST_FG3percent_homeTeam = pivotMeanHome t (fun g => g.FG3_PCT_home) p.1.HOME_TEAM_ID
        ∧ p.2.HIST_APG_homeTeam = pivotMeanHome t (fun g => g.AST_home) p.1.HOME_TEAM_ID
        ∧ p.2.HIST_REB_homeTeam = pivotMeanHome t (fun g => g.REB_home) p.1.HOME_TEAM_ID
        ∧ p.2.HIST_PPG_awayTeam = pivotMeanAway t (fun g => g.PTS_away) p.1.TEAM_ID_away
        ∧ p.2.HIST_FGpercent_awayTeam = pivotMeanAway t (fun g => g.FG_PCT_away) p.1.TEAM_ID_away
        ∧ p.2.HIST_FTpercent_awayTeam = pivotMeanAway t (fun g => g.FT_PCT_away) p.1.TEAM_ID_away
        ∧ p.2.HIST_FG3percent_awayTeam = pivotMeanAway t (fun g => g.FG3_PCT_away) p.1.TEAM_ID_away
        ∧ p.2.HIST_APG_awayTeam = pivotMeanAway t (fun g => g.AST_away) p.1.TEAM_ID_away
        ∧ p.2.HIST_REB_awayTeam = pivotMeanAway t (fun g => g.REB_away) p.1.TEAM_ID_away)
      ∧ (p.2.DIFF_HIST_PPG = p.2.HIST_PPG_homeTeam - p.2.HIST_PPG_awayTeam
        ∧ p.2.DIFF_HIST_FG = p.2.HIST_FGpercent_homeTeam - p.2.HIST_FGpercent_awayTeam
        ∧ p.2.DIFF_HIST_FT = p.2.HIST_FTpercent_homeTeam - p.2.HIST_FTpercent_awayTeam
        ∧ p.2.DIFF_HIST_FG3 = p.2.HIST_FG3percent_homeTeam - p.2.HIST_FG3percent_awayTeam
        ∧ p.2.DIFF_HIST_APG = p.2.HIST_APG_homeTeam - p.2.HIST_APG_awayTeam
        ∧ p.2.DIFF_HIST_REB = p.2.HIST_REB_homeTeam - p.2.HIST_REB_awayTeam) := by
  intro t p hp
  simp only [historicalAggregator, List.mem_map] at hp
  obtain ⟨r, hr, rfl⟩ := hp
  exact ⟨⟨rfl, rfl, rfl, rfl, rfl, rfl, rfl, rfl, rfl, rfl, rfl, rfl⟩,
         rfl, rfl, rfl, rfl, rfl, rfl⟩

/-- Witness for C6 on a one-row working table. -/
theorem historicalAggregator_witness :
    (histEnrich [exampleGameRow] exampleGameRow).2.DIFF_HIST_PPG
      = (histEnrich [exampleGameRow] exampleGameRow).2.HIST_PPG_homeTeam
        - (histEnrich [exampleGameRow] exampleGameRow).2.HIST_PPG_awayTeam :=
  (historicalAggregator_means_and_diffs [exampleGameRow]
    (histEnrich [exampleGameRow] exampleGameRow)
    (by simp [historicalAggregator])).2.1

/-- Claim C8 amended theorem: across two executions of the selection stage over
the same input table, the split is identical (it is a function of the fixed
arguments n, 0.3 and 2424), and every candidate carrying an explicit
random_state evaluates under the same seed; full equality of the result table
and hence of the ranking and the winner is guaranteed when the ambient global
random state also coincides, which the script does not control for the
thirteen unseeded candidates. -/
theorem selection_determinism_amended :
    ∀ (n : Nat) (aucOf : String → Nat → Option ℚ) (a b : Nat),
      (selectionRun n aucOf a).split = (selectionRun n aucOf b).split
      ∧ (∀ c s, c ∈ panel → c.config.randomState = some s →
          aucOf c.name (candidateSeed c a) = aucOf c.name (candidateSeed c b))
      ∧ (a = b → selectionRun n aucOf a = selectionRun n aucOf b) := by
  intro n aucOf a b
  refine ⟨rfl, ?_, ?_⟩
  · intro c s _ hs
    simp [candidateSeed, hs]
  · intro hab
    rw [hab]

/-- AUC oracle for the C8 witness. -/
def cWitAuc : String → Nat → Option ℚ := fun _ s => some (s : ℚ)

/-- Witness for C8: the seeded extra-tree entry evaluates identically under two
different ambient states, and equal ambient states give equal runs. -/
theorem selection_determinism_amended_witness :
    cWitAuc "ExtraTreeClassifier"
        (candidateSeed ⟨"ExtraTreeClassifier", { randomState := some 2408 }⟩ 0)
      = cWitAuc "ExtraTreeClassifier"
        (candidateSeed ⟨"ExtraTreeClassifier", { randomState := some 2408 }⟩ 1)
    ∧ selectionRun 100 cWitAuc 5 = selectionRun 100 cWitAuc 5 :=
  ⟨(selection_determinism_amended 100 cWitAuc 0 1).2.1
      ⟨"ExtraTreeClassifier", { randomState := some 2408 }⟩ 2408 (by decide) rfl,
   (selection_determinism_amended 100 cWitAuc 5 5).2.2 rfl⟩

/-- AUC oracle for the C8 counterexample: the multilayer perceptron attains AUC
1 under ambient seed 0 and AUC one half otherwise; every other family always
attains one half. -/
def cAucOf : String → Nat → Option ℚ := fun nm s =>
  if nm = "MLPClassifier" ∧ s = 0 then some 1 else some (mkRat 1 2)

/-- Claim C8 counterexample: two runs over the same input table, with the fixed
split ratio and seed, but under different ambient global random state: the
splits agree, yet the winner changes from the unseeded MLPClassifier to
ExtraTreeClassifier, so winner and ranking are not functions of table, ratio
and seed alone. -/
theorem selection_nondeterminism_counterexample :
    (selectionRun 100 cAucOf 0).split = (selectionRun 100 cAucOf 1).split
    ∧ winnerName (selectionRun 100 cAucOf 0).table = some "MLPClassifier"
    ∧ winnerName (selectionRun 100 cAucOf 1).table = some "ExtraTreeClassifier"
    ∧ winnerName (selectionRun 100 cAucOf 0).table
        ≠ winnerName (selectionRun 100 cAucOf 1).table := by
  decide

/-- Claim C9 amended theorem: for a winner outside the importance-bearing
families (and with a usable predict_proba), the stage prints the accuracy line
and then raises a generic builtin AttributeError about feature_importances_;
it emits no importance ranking, and the exception class is AttributeError, the
same builtin class other attribute failures of the stage raise, so the failure
is distinguishable only by message text, not by a dedicated error type. -/
theorem explainStage_error_amended :
    ∀ nm : String, supportsProba nm defaultConfig = true →
      supportsImportances nm = false →
      explainStage nm
        = ([ReportOutput.accuracyLine],
           some (attributeErrorOn nm "feature_importances_"))
      ∧ ReportOutput.importanceRanking ∉ (explainStage nm).1
      ∧ (attributeErrorOn nm "feature_importances_").excType = "AttributeError" := by
  intro nm hp hi
  have hstage : explainStage nm
      = ([ReportOutput.accuracyLine],
         some (attributeErrorOn nm "feature_importances_")) := by
    simp [explainStage, rebuild, hp, hi]
  refine ⟨hstage, ?_, rfl⟩
  rw [hstage]
  show ReportOutput.importanceRanking ∉ [ReportOutput.accuracyLine]
  decide

/-- Witness for C9 at the linear discriminant family. -/
theorem explainStage_error_amended_witness :
    explainStage "LinearDiscriminantAnalysis"
      = ([ReportOutput.accuracyLine],
         some (attributeErrorOn "LinearDiscriminantAnalysis" "feature_importances_")) :=
  (explainStage_error_amended "LinearDiscriminantAnalysis" (by decide) (by decide)).1

/-- Claim C9 counterexample: the stage failure for a winner without importances
is the generic AttributeError, carrying the same exception class as the
predict_proba failure of a rebuilt SVC winner, so a caller catching by type
cannot tell explainability-unsupported apart from other attribute failures. -/
theorem explainStage_untyped_error_counterexample :
    explainStage "LogisticRegression"
      = ([ReportOutput.accuracyLine],
         some (attributeErrorOn "LogisticRegression" "feature_importances_"))
    ∧ explainStage "SVC" = ([], some (attributeErrorOn "SVC" "predict_proba"))
    ∧ (attributeErrorOn "LogisticRegression" "feature_importances_").excType
        = (attributeErrorOn "SVC" "predict_proba").excType := by
  decide

/-- Claim C10: eval(final)() rebuilds every winner with default configuration;
the three seeded tree entries lose their random_state=2408, and a NuSVC or SVC
winner is rebuilt with probability support disabled, so the stage raises at
the predict_proba call of line 427 before emitting any accuracy, ROC or
importance output. -/
theorem rebuild_drops_args_svc_crash :
    (∀ c, c ∈ panel → (rebuild c.name).config = defaultConfig)
    ∧ (∀ c, c ∈ panel →
        (c.name = "ExtraTreeClassifier" ∨ c.name = "DecisionTreeClassifier"
          ∨ c.name = "RandomForestClassifier") →
        c.config.randomState = some 2408
          ∧ (rebuild c.name).config.randomState = none)
    ∧ (∀ nm, nm = "NuSVC" ∨ nm = "SVC" →
        (∃ c, c ∈ panel ∧ c.name = nm ∧ c.config.probability = true)
        ∧ (rebuild nm).config.probability = false
        ∧ explainStage nm = ([], some (attributeErrorOn nm "predict_proba"))) := by
  refine ⟨fun c _ => rfl, ?_, ?_⟩
  · have hall : ∀ c ∈ panel,
        (c.name = "ExtraTreeClassifier" ∨ c.name = "DecisionTreeClassifier"
          ∨ c.name = "RandomForestClassifier") →
        c.config.randomState = some 2408
          ∧ (rebuild c.name).config.randomState = none := by decide
    intro c hc hname
    exact hall c hc hname
  · intro nm hnm
    cases hnm with
    | inl h =>
      subst h
      exact ⟨⟨⟨"NuSVC", { probability := true }⟩, by decide, rfl, rfl⟩, rfl, by decide⟩
    | inr h =>
      subst h
      exact ⟨⟨⟨"SVC", { probability := true }⟩, by decide, rfl, rfl⟩, rfl, by decide⟩

/-- Witness for C10: the NuSVC rebuild loses probability support and the stage
fails before any output, and the seeded extra-tree entry loses its seed. -/
theorem rebuild_drops_args_svc_crash_witness :
    ((rebuild "NuSVC").config.probability = false
      ∧ explainStage "NuSVC" = ([], some (attributeErrorOn "NuSVC" "predict_proba")))
    ∧ (rebuild "ExtraTreeClassifier").config.randomState = none :=
  ⟨⟨(rebuild_drops_args_svc_crash.2.2 "NuSVC" (Or.inl rfl)).2.1,
    (rebuild_drops_args_svc_crash.2.2 "NuSVC" (Or.inl rfl)).2.2⟩,
   (rebuild_drops_args_svc_crash.2.1 ⟨"ExtraTreeClassifier", { randomState := some 2408 }⟩
      (by decide) (Or.inl rfl)).2⟩

end NBAML
